import Mathlib

/-!
Shallow embedding of the combat core of `src/src/main.py` (a console turn-based
RPG): the `Stats` record with its property setters, `Character.take_damage` and
`Character.attack_target`, the `CharacterFactory` presets, the `TurnBasedGame`
loop with `Game.start`, and the `MainMenuState` transition of the menu state
machine.  Published events (the synchronous `EventBus.publish` calls) are
modelled as an output trace of type `List Event`; randomness of
`BasicAttackStrategy` is modelled by threading a draw counter and an arbitrary
noise stream.  Python exceptions are modelled with `Except`; a Python function
that returns `None` is modelled as returning `none : Option _`.
-/

namespace RPG

/-- The four event dataclasses published on the io bus
(`AttackStartedEvent`, `DamageTakenEvent`, `CharacterDied`, `WelcomeEvent`). -/
inductive Event where
  | attackStarted (attacker target : String)
  | damageTaken (name : String) (damage remaining_hp : Int)
  | characterDied (name : String)
  | welcome (game_name : String)
  deriving Repr, DecidableEq

/-- The `Stats` record.  Python ints are unbounded, so fields are `Int`. -/
structure Stats where
  hp : Int
  attack : Int
  defense : Int
  deriving Repr, DecidableEq

/-- `Stats.__init__`: it assigns the mangled private fields
(`self.__hp`, `self.__attack`, `self.__defense`) directly, so the property
setters below are NOT invoked at construction and no validation runs. -/
def Stats.init (hp attack defense : Int) : Stats :=
  { hp := hp, attack := attack, defense := defense }

/-- The `hp` property setter: a negative value is clamped to 0. -/
def Stats.setHp (s : Stats) (value : Int) : Stats :=
  if value < 0 then { s with hp := 0 } else { s with hp := value }

/-- The `attack` property setter: raises `ValueError` on a negative value. -/
def Stats.setAttack (s : Stats) (value : Int) : Except String Stats :=
  if value < 0 then Except.error "attack must be non-negative"
  else Except.ok { s with attack := value }

/-- The `defense` property setter: raises `ValueError` on a negative value. -/
def Stats.setDefense (s : Stats) (value : Int) : Except String Stats :=
  if value < 0 then Except.error "Defense must be non-negative"
  else Except.ok { s with defense := value }

/-- `Stats.is_dead`. -/
def Stats.is_dead (s : Stats) : Bool := s.hp ≤ 0

/-- `Stats.is_alive`. -/
def Stats.is_alive (s : Stats) : Bool := s.hp > 0

/-- `IAttackStrategy.calculate_damage`, as a deterministic function of the
number of random draws consumed so far and the base attack.  Any run of the
Python program corresponds to some such function. -/
def IAttackStrategy : Type := Nat → Int → Int

/-- `BasicAttackStrategy` over a noise stream `r`: `base_attack + r k`, where
the Python draw `random.randint(-2, 2)` is the k-th element of the stream. -/
def BasicAttackStrategy (r : Nat → Int) : IAttackStrategy :=
  fun k base => base + r k

/-- A strategy whose `calculate_damage` returns the base attack unchanged
(zero noise). -/
def ZeroNoiseStrategy : IAttackStrategy :=
  fun _ base => base

/-- A `Character` (the common state of `Player` and `Enemy`): name, owned
`Stats`, and the attack strategy.  The event bus is modelled by the event
traces the operations return. -/
structure Character where
  name : String
  stats : Stats
  strategy : IAttackStrategy

/-- `Character.is_alive`. -/
def Character.is_alive (c : Character) : Bool := c.stats.is_alive

/-- `Character.is_dead`. -/
def Character.is_dead (c : Character) : Bool := c.stats.is_dead

/-- `Character.take_damage(amount)`: mitigate by defense with a `max 0` floor,
write the new hp through the clamping `hp` setter, publish `DamageTakenEvent`,
and publish `CharacterDied` whenever `is_dead()` holds afterwards (the check is
unconditional, with no already-dead guard).  The Python method body has no
`return` statement, so its return value is `None`, modelled as
`none : Option Int`. -/
def Character.take_damage (c : Character) (amount : Int) :
    Character × List Event × Option Int :=
  let damage := max 0 (amount - c.stats.defense)
  let stats1 := c.stats.setHp (c.stats.hp - damage)
  let evs := [Event.damageTaken c.name damage stats1.hp]
  let evs := if stats1.is_dead then evs ++ [Event.characterDied c.name] else evs
  ({ c with stats := stats1 }, evs, none)

/-- `Character.attack_target(target)`: a dead attacker returns at once with no
events; otherwise publish `AttackStartedEvent`, compute the raw damage with the
strategy (consuming one draw, `k` is the draw counter), and call the target's
`take_damage`.  Returns the attacker (never written to), the updated target,
the published events, and the new draw counter. -/
def Character.attack_target (self target : Character) (k : Nat) :
    Character × Character × List Event × Nat :=
  if self.is_alive then
    let damage_amount := self.strategy k self.stats.attack
    let r := target.take_damage damage_amount
    (self, r.1, Event.attackStarted self.name target.name :: r.2.1, k + 1)
  else
    (self, target, [], k)

/-- The closed `EnemyTypes` enumeration. -/
inductive EnemyTypes where
  | goblin
  | soldier
  | skeleton
  | dragon
  deriving Repr, DecidableEq

/-- `CharacterFactory.create_player`: fixed preset hp 100, attack 10,
defense 5. -/
def CharacterFactory.create_player (name : String) (strategy : IAttackStrategy) :
    Character :=
  { name := name, stats := Stats.init 100 10 5, strategy := strategy }

/-- `CharacterFactory.create_enemy`: fixed presets per enemy kind (the Python
`else: raise ValueError` branch is unreachable for values of the closed
enumeration, so the match is total). -/
def CharacterFactory.create_enemy (enemy_type : EnemyTypes)
    (strategy : IAttackStrategy) : Character :=
  match enemy_type with
  | EnemyTypes.goblin => { name := "Goblin", stats := Stats.init 40 6 3, strategy := strategy }
  | EnemyTypes.soldier => { name := "Soldier", stats := Stats.init 60 8 5, strategy := strategy }
  | EnemyTypes.skeleton => { name := "Skeleton", stats := Stats.init 30 10 2, strategy := strategy }
  | EnemyTypes.dragon => { name := "Dragon", stats := Stats.init 80 20 10, strategy := strategy }

/-- State of a `TurnBasedGame`: the player, the enemy, and the number of random
draws consumed so far by either strategy. -/
structure GameState where
  player : Character
  enemy : Character
  draws : Nat

/-- `TurnBasedGame.player_turn`: the player attacks the enemy. -/
def TurnBasedGame.playerTurn (g : GameState) : GameState × List Event :=
  let r := g.player.attack_target g.enemy g.draws
  ({ player := r.1, enemy := r.2.1, draws := r.2.2.2 }, r.2.2.1)

/-- `TurnBasedGame.enemy_turn`: the enemy attacks the player. -/
def TurnBasedGame.enemyTurn (g : GameState) : GameState × List Event :=
  let r := g.enemy.attack_target g.player g.draws
  ({ player := r.2.1, enemy := r.1, draws := r.2.2.2 }, r.2.2.1)

/-- `TurnBasedGame.play`: while both are alive, player turn then enemy turn.
`fuel` bounds the number of loop iterations of the embedding; the Python loop
has no bound (a run that ends within the fuel is a faithful complete run). -/
def TurnBasedGame.play (fuel : Nat) (g : GameState) : GameState × List Event :=
  match fuel with
  | 0 => (g, [])
  | n + 1 =>
    if g.player.is_alive && g.enemy.is_alive then
      let r1 := TurnBasedGame.playerTurn g
      let r2 := TurnBasedGame.enemyTurn r1.1
      let r3 := TurnBasedGame.play n r2.1
      (r3.1, r1.2 ++ r2.2 ++ r3.2)
    else
      (g, [])

/-- `Game.start`: publish `WelcomeEvent("Hot RPG")`, then run `play`. -/
def Game.start (fuel : Nat) (g : GameState) : GameState × List Event :=
  let r := TurnBasedGame.play fuel g
  (r.1, Event.welcome "Hot RPG" :: r.2)

/-- The flow states of the menu state machine. -/
inductive FlowState where
  | mainMenu
  | characterCreation
  | playState
  | gameOver
  | exitGame
  deriving Repr, DecidableEq

/-- `MainMenuState.run`, as a function of the string returned by the input
seam: renders the menu lines, then input `"1"` goes to character creation,
`"2"` to exit, and anything else writes the invalid-choice line and sets the
state back to the main menu.  Returns the next flow state and the lines
written to the output seam. -/
def MainMenuState.run (choice : String) : FlowState × List String :=
  let out := ["\n ==== MAIN MENU ====\n", "1. New Game\n", "2. Exit\n"]
  if choice = "1" then (FlowState.characterCreation, out)
  else if choice = "2" then (FlowState.exitGame, out)
  else (FlowState.mainMenu, out ++ ["invalid choice, try again!"])

/-- Modelled from the spec: `Stats.heal` and the immutable maximum health are
absent from `src/src/main.py` (the `Stats` class there has no `heal` method
and no maximum field); this record and the `heal` below follow the spec's
words: current health = min(maximum, current health + amount), amount must be
≥ 0 (negative heal is an invalid-argument condition). -/
structure SpecStats where
  maximum : Int
  current : Int
  deriving Repr, DecidableEq

/-- Modelled from the spec: `heal(amount)` sets current health to
`min(maximum, current health + amount)`; a negative amount signals an
invalid-argument condition. -/
def SpecStats.heal (s : SpecStats) (amount : Int) : Except String SpecStats :=
  if amount < 0 then Except.error "heal amount must be non-negative"
  else Except.ok { s with current := min s.maximum (s.current + amount) }

/-- Fixture: the factory player versus the factory goblin with the zero-noise
strategy, no draws consumed yet. -/
def g0PvG : GameState :=
  { player := CharacterFactory.create_player "Player" ZeroNoiseStrategy,
    enemy := CharacterFactory.create_enemy EnemyTypes.goblin ZeroNoiseStrategy,
    draws := 0 }

/-- Fixture: a state in which the player's first attack kills the enemy. -/
def gKill : GameState :=
  { player := { name := "P", stats := Stats.init 10 100 0, strategy := ZeroNoiseStrategy },
    enemy := { name := "E", stats := Stats.init 1 1 0, strategy := ZeroNoiseStrategy },
    draws := 0 }

/-- Fixture: the factory goblin with the zero-noise strategy. -/
def goblinW : Character := CharacterFactory.create_enemy EnemyTypes.goblin ZeroNoiseStrategy

/-- A live attacker publishes `AttackStarted`, draws once, and damages the
target. -/
theorem attack_target_of_alive (self target : Character) (k : Nat)
    (h : self.is_alive = true) :
    self.attack_target target k =
      (self, (target.take_damage (self.strategy k self.stats.attack)).1,
       Event.attackStarted self.name target.name
         :: (target.take_damage (self.strategy k self.stats.attack)).2.1,
       k + 1) := by
  simp [Character.attack_target, h]

/-- A dead attacker returns immediately: no events, nothing changed. -/
theorem attack_target_of_dead (self target : Character) (k : Nat)
    (h : self.is_alive = false) :
    self.attack_target target k = (self, target, [], k) := by
  simp [Character.attack_target, h]

/-- Once the loop guard is false, `play` stops with no further events,
whatever the fuel. -/
theorem play_of_stop (fuel : Nat) (g : GameState)
    (h : (g.player.is_alive && g.enemy.is_alive) = false) :
    TurnBasedGame.play fuel g = (g, []) := by
  cases fuel <;> simp [TurnBasedGame.play, h]

/-- C1: for a character with defense `d` and current health `h ≥ 0` and any
non-negative `amount`, `take_damage amount` sets the current health to
`max 0 (h - max 0 (amount - d))`: health drops by exactly the net damage
`max 0 (amount - d)` and is clamped at 0. -/
theorem takeDamage_health_eq (c : Character) (amount : Int)
    (hh : 0 ≤ c.stats.hp) (ha : 0 ≤ amount) :
    (c.take_damage amount).1.stats.hp
      = max 0 (c.stats.hp - max 0 (amount - c.stats.defense)) := by
  simp only [Character.take_damage, Stats.setHp]
  split
  · next h => simp at h ⊢; omega
  · next h => simp at h ⊢; omega

/-- Witness for C1 at the factory goblin (hp 40, defense 3) hit with 12. -/
theorem takeDamage_health_eq_witness :
    (0 ≤ goblinW.stats.hp ∧ (0:Int) ≤ 12) ∧
    (goblinW.take_damage 12).1.stats.hp
      = max 0 (goblinW.stats.hp - max 0 (12 - goblinW.stats.defense)) :=
  ⟨⟨by decide, by decide⟩, takeDamage_health_eq goblinW 12 (by decide) (by decide)⟩

/-- C2 evidence: the first lethal hit on the factory goblin publishes
`CharacterDied` once and leaves it dead, and a second hit on the already-dead
goblin publishes `CharacterDied` AGAIN: `take_damage` re-checks `is_dead()`
unconditionally, so the event is not published exactly once per character. -/
theorem characterDied_refires_on_dead_character :
    ((goblinW.take_damage 100).2.1.count (Event.characterDied "Goblin") = 1) ∧
    ((goblinW.take_damage 100).1.is_dead = true) ∧
    (((goblinW.take_damage 100).1.take_damage 50).2.1.count
        (Event.characterDied "Goblin") = 1) := by
  refine ⟨?_, ?_, ?_⟩ <;> decide

/-- C3 counterexample: in the Player-attacks-Dragon matchup the attacker's
attack stat (10) is NOT strictly greater than the defender's defense stat
(10). -/
theorem player_attack_not_gt_dragon_defense :
    ¬ ((CharacterFactory.create_player "Player" ZeroNoiseStrategy).stats.attack
        > (CharacterFactory.create_enemy EnemyTypes.dragon ZeroNoiseStrategy).stats.defense) := by
  decide

/-- C3 amended: every factory enemy's attack is strictly greater than the
factory player's defense, and the player's attack is strictly greater than the
defense of every enemy kind except the Dragon, where the player's attack
equals the Dragon's defense (10 = 10). -/
theorem factory_matchup_attack_defense (name : String) (s : IAttackStrategy)
    (e : EnemyTypes) (hne : e ≠ EnemyTypes.dragon) :
    (CharacterFactory.create_enemy e s).stats.attack
        > (CharacterFactory.create_player name s).stats.defense ∧
    (CharacterFactory.create_player name s).stats.attack
        > (CharacterFactory.create_enemy e s).stats.defense ∧
    (CharacterFactory.create_enemy EnemyTypes.dragon s).stats.attack
        > (CharacterFactory.create_player name s).stats.defense ∧
    (CharacterFactory.create_player name s).stats.attack
        = (CharacterFactory.create_enemy EnemyTypes.dragon s).stats.defense := by
  cases e
  · exact ⟨show (6:Int) > 5 by decide, show (10:Int) > 3 by decide,
      show (20:Int) > 5 by decide, rfl⟩
  · exact ⟨show (8:Int) > 5 by decide, show (10:Int) > 5 by decide,
      show (20:Int) > 5 by decide, rfl⟩
  · exact ⟨show (10:Int) > 5 by decide, show (10:Int) > 2 by decide,
      show (20:Int) > 5 by decide, rfl⟩
  · exact absurd rfl hne

/-- Witness for C3 at the Goblin matchup. -/
theorem factory_matchup_attack_defense_witness :
    (EnemyTypes.goblin ≠ EnemyTypes.dragon) ∧
    ((CharacterFactory.create_enemy EnemyTypes.goblin ZeroNoiseStrategy).stats.attack
        > (CharacterFactory.create_player "X" ZeroNoiseStrategy).stats.defense ∧
     (CharacterFactory.create_player "X" ZeroNoiseStrategy).stats.attack
        > (CharacterFactory.create_enemy EnemyTypes.goblin ZeroNoiseStrategy).stats.defense ∧
     (CharacterFactory.create_enemy EnemyTypes.dragon ZeroNoiseStrategy).stats.attack
        > (CharacterFactory.create_player "X" ZeroNoiseStrategy).stats.defense ∧
     (CharacterFactory.create_player "X" ZeroNoiseStrategy).stats.attack
        = (CharacterFactory.create_enemy EnemyTypes.dragon ZeroNoiseStrategy).stats.defense) :=
  ⟨by decide,
   factory_matchup_attack_defense "X" ZeroNoiseStrategy EnemyTypes.goblin (by decide)⟩

/-- C4 counterexample: `Stats.__init__` with a negative attack completes and
stores the negative value (no exception is raised at construction, because the
constructor writes the private fields directly, bypassing the validating
setters). -/
theorem stats_init_stores_negative_attack :
    (Stats.init 10 (-1) 3).attack = -1 ∧ (Stats.init 10 3 (-1)).defense = -1 := by
  exact ⟨rfl, rfl⟩

/-- C4 amended: assigning a negative value through the `attack` or `defense`
property setter raises `ValueError`, but `Stats.__init__` assigns the mangled
private fields directly and bypasses the setters, so a negative attack or
defense passed at construction is stored verbatim with no error. -/
theorem stats_setters_reject_init_bypasses (s : Stats) (hp0 a0 d0 v : Int)
    (hv : v < 0) :
    s.setAttack v = Except.error "attack must be non-negative" ∧
    s.setDefense v = Except.error "Defense must be non-negative" ∧
    (Stats.init hp0 v d0).attack = v ∧
    (Stats.init hp0 a0 v).defense = v := by
  refine ⟨?_, ?_, rfl, rfl⟩ <;> simp [Stats.setAttack, Stats.setDefense, hv]

/-- Witness for C4 at `v = -1`. -/
theorem stats_setters_reject_init_bypasses_witness :
    ((-1 : Int) < 0) ∧
    ((Stats.init 10 2 3).setAttack (-1) = Except.error "attack must be non-negative" ∧
     (Stats.init 10 2 3).setDefense (-1) = Except.error "Defense must be non-negative" ∧
     (Stats.init 7 (-1) 4).attack = -1 ∧
     (Stats.init 7 6 (-1)).defense = -1) :=
  ⟨by decide, stats_setters_reject_init_bypasses (Stats.init 10 2 3) 7 6 4 (-1) (by decide)⟩

/-- C5 (modelled from the spec, `heal` being absent from `src/src/main.py`):
for non-negative `amount`, `heal amount` succeeds, sets current health to
`min maximum (current + amount)`, and every successful result has current
health at most the maximum. -/
theorem heal_clamps_at_maximum (s : SpecStats) (amount : Int) (h : 0 ≤ amount) :
    s.heal amount
      = Except.ok { s with current := min s.maximum (s.current + amount) } ∧
    ∀ t : SpecStats, s.heal amount = Except.ok t → t.current ≤ s.maximum := by
  have hok : s.heal amount
      = Except.ok { s with current := min s.maximum (s.current + amount) } := by
    simp [SpecStats.heal]
    omega
  refine ⟨hok, ?_⟩
  intro t ht
  rw [hok] at ht
  cases ht
  exact min_le_left _ _

/-- Witness for C5: healing 20 from 95/100 caps at 100. -/
theorem heal_clamps_at_maximum_witness :
    ((0:Int) ≤ 20) ∧
    ((SpecStats.mk 100 95).heal 20
        = Except.ok { SpecStats.mk 100 95 with
            current := min (SpecStats.mk 100 95).maximum ((SpecStats.mk 100 95).current + 20) } ∧
     ∀ t : SpecStats, (SpecStats.mk 100 95).heal 20 = Except.ok t
        → t.current ≤ (SpecStats.mk 100 95).maximum) :=
  ⟨by decide, heal_clamps_at_maximum (SpecStats.mk 100 95) 20 (by decide)⟩

/-- C8 amended: for every character and amount, `take_damage` is total (no
exception path), its Python return value is `None` (not the net damage), and
the net damage it applies and reports in the `DamageTaken` event is
`max 0 (amount - defense)` — so a negative amount is clamped to zero net
damage by the `max 0` floor whenever defense is non-negative. -/
theorem takeDamage_total_none_and_net_damage (c : Character) (amount : Int) :
    (c.take_damage amount).2.2 = none ∧
    (c.take_damage amount).2.1.head?
      = some (Event.damageTaken c.name (max 0 (amount - c.stats.defense))
          (max 0 (c.stats.hp - max 0 (amount - c.stats.defense)))) ∧
    (c.take_damage amount).1.stats.hp
      = max 0 (c.stats.hp - max 0 (amount - c.stats.defense)) := by
  refine ⟨rfl, ?_, ?_⟩
  · simp only [Character.take_damage, Stats.setHp]
    split
    · split
      · next h _ => simp at h ⊢; omega
      · next h _ => simp at h ⊢; omega
    · split
      · next h _ => simp at h ⊢; omega
      · next h _ => simp at h ⊢; omega
  · simp only [Character.take_damage, Stats.setHp]
    split
    · next h => simp at h ⊢; omega
    · next h => simp at h ⊢; omega

/-- C8 counterexample: hitting the factory goblin (defense 3) with amount 10
applies net damage `max 0 (10 - 3) = 7`, but the call does NOT return this
value: the Python method body has no return statement, so it returns `None`. -/
theorem takeDamage_returns_none_not_damage :
    (goblinW.take_damage 10).2.2
      ≠ some (max 0 (10 - goblinW.stats.defense)) := by
  decide

/-- C9: from the main menu, input "1" goes to character creation, input "2"
goes to exit, and any other input stays at the main menu with exactly one
invalid-choice line written. -/
theorem mainMenu_transitions :
    (MainMenuState.run "1").1 = FlowState.characterCreation ∧
    (MainMenuState.run "2").1 = FlowState.exitGame ∧
    ∀ choice : String, choice ≠ "1" → choice ≠ "2" →
      (MainMenuState.run choice).1 = FlowState.mainMenu ∧
      (MainMenuState.run choice).2.count "invalid choice, try again!" = 1 := by
  refine ⟨rfl, rfl, ?_⟩
  intro choice h1 h2
  simp only [MainMenuState.run, if_neg h1, if_neg h2]
  exact ⟨trivial, by decide⟩

/-- Witness for C9 at the invalid input "3". -/
theorem mainMenu_transitions_witness :
    (("3" : String) ≠ "1" ∧ ("3" : String) ≠ "2") ∧
    ((MainMenuState.run "3").1 = FlowState.mainMenu ∧
     (MainMenuState.run "3").2.count "invalid choice, try again!" = 1) :=
  ⟨⟨by decide, by decide⟩, mainMenu_transitions.2.2 "3" (by decide) (by decide)⟩

/-- C10: `take_damage` changes only the target's current health — the
target's name, attack, defense and attack strategy are unchanged, for every
amount (dead targets included) — and `attack_target` leaves the attacker
entirely unchanged. -/
theorem takeDamage_frame (c : Character) (amount : Int)
    (self target : Character) (k : Nat) :
    (c.take_damage amount).1.name = c.name ∧
    (c.take_damage amount).1.stats.attack = c.stats.attack ∧
    (c.take_damage amount).1.stats.defense = c.stats.defense ∧
    (c.take_damage amount).1.strategy = c.strategy ∧
    (self.attack_target target k).1 = self := by
  refine ⟨rfl, ?_, ?_, rfl, ?_⟩
  · simp only [Character.take_damage, Stats.setHp]
    split <;> rfl
  · simp only [Character.take_damage, Stats.setHp]
    split <;> rfl
  · simp only [Character.attack_target]
    split <;> rfl

/-- C6: every run publishes Welcome first, and in a round whose player attack
leaves the enemy not-alive, the whole remainder of the run consists of exactly
the player-attack events: the dead enemy's turn publishes nothing, the
player's health is untouched, and the loop exits. -/
theorem combat_welcome_first_no_dead_retaliation (fuel n : Nat) (g : GameState)
    (hp : g.player.is_alive = true) (he : g.enemy.is_alive = true)
    (hkill : (g.player.attack_target g.enemy g.draws).2.1.is_alive = false) :
    (Game.start fuel g).2.head? = some (Event.welcome "Hot RPG") ∧
    TurnBasedGame.play (n + 1) g =
      ({ player := g.player,
         enemy := (g.player.attack_target g.enemy g.draws).2.1,
         draws := g.draws + 1 },
       (g.player.attack_target g.enemy g.draws).2.2.1) := by
  constructor
  · rfl
  · have hA := attack_target_of_alive g.player g.enemy g.draws hp
    rcases hAeq : g.player.attack_target g.enemy g.draws with ⟨a, t, evs2, k2⟩
    rw [hAeq] at hA hkill
    simp only [Prod.mk.injEq] at hA
    obtain ⟨ha, -, -, hk⟩ := hA
    simp only [TurnBasedGame.play]
    rw [if_pos (by simp [hp, he])]
    simp only [TurnBasedGame.playerTurn, TurnBasedGame.enemyTurn, hAeq]
    rw [attack_target_of_dead t a k2 hkill]
    rw [play_of_stop n _ (by simp [hkill])]
    simp [ha, hk]

/-- Witness for C6: a player whose first strike kills the enemy. -/
theorem combat_welcome_first_no_dead_retaliation_witness :
    (gKill.player.is_alive = true ∧ gKill.enemy.is_alive = true ∧
     (gKill.player.attack_target gKill.enemy gKill.draws).2.1.is_alive = false) ∧
    ((Game.start 3 gKill).2.head? = some (Event.welcome "Hot RPG") ∧
     TurnBasedGame.play (2 + 1) gKill =
       ({ player := gKill.player,
          enemy := (gKill.player.attack_target gKill.enemy gKill.draws).2.1,
          draws := gKill.draws + 1 },
        (gKill.player.attack_target gKill.enemy gKill.draws).2.2.1)) :=
  ⟨⟨by decide, by decide, by decide⟩,
   combat_welcome_first_no_dead_retaliation 3 2 gKill (by decide) (by decide) (by decide)⟩

/-- C7: the full zero-noise run of the factory Player (hp 100, attack 10,
defense 5) against the factory Goblin (hp 40, attack 6, defense 3): the player
deals exactly 7 net damage per turn, the goblin exactly 1, the goblin dies on
the player's 6th turn (6 player attacks, 5 goblin retaliations, no 6th
retaliation), the player ends at hp 95, and the loop performs no further
round from the final state. -/
theorem zero_noise_player_vs_goblin_run :
    (Game.start 6 g0PvG).2 =
      [Event.welcome "Hot RPG",
       Event.attackStarted "Player" "Goblin", Event.damageTaken "Goblin" 7 33,
       Event.attackStarted "Goblin" "Player", Event.damageTaken "Player" 1 99,
       Event.attackStarted "Player" "Goblin", Event.damageTaken "Goblin" 7 26,
       Event.attackStarted "Goblin" "Player", Event.damageTaken "Player" 1 98,
       Event.attackStarted "Player" "Goblin", Event.damageTaken "Goblin" 7 19,
       Event.attackStarted "Goblin" "Player", Event.damageTaken "Player" 1 97,
       Event.attackStarted "Player" "Goblin", Event.damageTaken "Goblin" 7 12,
       Event.attackStarted "Goblin" "Player", Event.damageTaken "Player" 1 96,
       Event.attackStarted "Player" "Goblin", Event.damageTaken "Goblin" 7 5,
       Event.attackStarted "Goblin" "Player", Event.damageTaken "Player" 1 95,
       Event.attackStarted "Player" "Goblin", Event.damageTaken "Goblin" 7 0,
       Event.characterDied "Goblin"] ∧
    (Game.start 6 g0PvG).1.player.stats = { hp := 95, attack := 10, defense := 5 } ∧
    (Game.start 6 g0PvG).1.enemy.stats = { hp := 0, attack := 6, defense := 3 } ∧
    (Game.start 6 g0PvG).1.enemy.is_dead = true ∧
    TurnBasedGame.play 1 (Game.start 6 g0PvG).1 = ((Game.start 6 g0PvG).1, []) :=
  ⟨by decide, by decide, by decide, by decide, play_of_stop 1 _ (by decide)⟩

end RPG
